import Mathlib

/-!
Verification development for the KDP publishing web application
(client export utilities, document validation, and the in-memory
storage layer). JavaScript strings are modelled as `List Char`;
JavaScript numbers that only ever appear interpolated into output
templates are modelled as their decimal string rendering.
-/

/-- JavaScript strings are modelled as lists of characters. -/
abbrev Str := List Char

/-- Convert a Lean string literal to the `List Char` model. -/
def str (s : String) : Str := s.data

/-- The double-quote character. -/
def quoteChar : Char := Char.ofNat 34

/-- The apostrophe character. -/
def aposChar : Char := Char.ofNat 39

/-- `text.replace(/c/g, rep)` for a single character `c`: every
occurrence of `c` is replaced by the string `rep`. -/
def replaceChar (c : Char) (rep : Str) (l : Str) : Str :=
  l.flatMap (fun a => if a = c then rep else [a])

/-- `escapeXML` from `exportUtils.ts` (lines 530-537): five sequential
global single-character replacements, `&` first. -/
def escapeXML (text : Str) : Str :=
  replaceChar aposChar (str "&#39;")
    (replaceChar quoteChar (str "&quot;")
      (replaceChar '>' (str "&gt;")
        (replaceChar '<' (str "&lt;")
          (replaceChar '&' (str "&amp;") text))))

/-- Alphanumeric test matching the regex `[^a-z0-9]` with the `i` flag:
a character counts as alphanumeric when it is an ASCII letter (either
case) or an ASCII digit. -/
def isAlnum (c : Char) : Bool :=
  ('a' ≤ c && c ≤ 'z') || ('A' ≤ c && c ≤ 'Z') || ('0' ≤ c && c ≤ '9')

/-- `sanitizeFilename` from `exportUtils.ts` (lines 539-541):
`filename.replace(/[^a-z0-9]/gi, '_').toLowerCase()` — each
non-alphanumeric character becomes one underscore, then the result is
lower-cased. -/
def sanitizeFilename (filename : Str) : Str :=
  (filename.map (fun c => if isAlnum c then c else '_')).map Char.toLower

/-- Hex digit rendering of `v.toString(16)` for `v < 16`. -/
def hexDigit (v : Nat) : Char :=
  if v < 10 then Char.ofNat (48 + v) else Char.ofNat (87 + v)

/-- The UUID template `'xxxxxxxx-xxxx-4xxx-yxxx-xxxxxxxxxxxx'`. -/
def uuidTemplate : Str := str "xxxxxxxx-xxxx-4xxx-yxxx-xxxxxxxxxxxx"

/-- One callback step of `generateUUID`: each `x`/`y` in the template
consumes a fresh random draw `r ∈ [0,16)`; `x` renders `r` in hex, `y`
renders `(r & 0x3) | 0x8` in hex, other characters are copied. -/
def genUUIDAux : Str → List Nat → Str
  | [], _ => []
  | c :: cs, rs =>
    if c = 'x' then hexDigit (rs.headD 0 % 16) :: genUUIDAux cs rs.tail
    else if c = 'y' then
      hexDigit (((rs.headD 0 % 16) &&& 0x3) ||| 0x8) :: genUUIDAux cs rs.tail
    else c :: genUUIDAux cs rs

/-- `generateUUID` from `exportUtils.ts` (lines 543-549), with the
stream of `Math.random()*16 | 0` draws passed explicitly. -/
def generateUUID (draws : List Nat) : Str :=
  genUUIDAux uuidTemplate draws

/-- The character set removed by JavaScript `String.prototype.trim`
(ECMAScript WhiteSpace and LineTerminator characters). -/
def isJSWhitespace (c : Char) : Bool :=
  c = ' ' || c = '\t' || c = '\n' || c = '\r' ||
  c = Char.ofNat 0xb || c = Char.ofNat 0xc ||
  c = Char.ofNat 0xa0 || c = Char.ofNat 0x1680 ||
  (Char.ofNat 0x2000 ≤ c && c ≤ Char.ofNat 0x200a) ||
  c = Char.ofNat 0x2028 || c = Char.ofNat 0x2029 ||
  c = Char.ofNat 0x202f || c = Char.ofNat 0x205f ||
  c = Char.ofNat 0x3000 || c = Char.ofNat 0xfeff

/-- JavaScript `String.prototype.trim`: strip whitespace from both
ends. -/
def trimJS (s : Str) : Str :=
  ((s.dropWhile isJSWhitespace).reverse.dropWhile isJSWhitespace).reverse

/-- `content.split('\n\n')`: split on non-overlapping occurrences of the
two-character separator, scanning left to right (JavaScript
`String.prototype.split` semantics; the empty string splits to
`[""]`). -/
def splitSeq2 : Str → List Str
  | [] => [[]]
  | [c] => [[c]]
  | c1 :: c2 :: rest =>
    if c1 = '\n' ∧ c2 = '\n' then [] :: splitSeq2 rest
    else
      match splitSeq2 (c2 :: rest) with
      | [] => [[c1]]
      | h :: t => (c1 :: h) :: t

/-- Whether the two-character separator `"\n\n"` occurs anywhere in the
string. -/
def hasBlankSep : Str → Bool
  | c1 :: c2 :: rest => (c1 = '\n' && c2 = '\n') || hasBlankSep (c2 :: rest)
  | _ => false

/-- `formatChapterContent` from `exportUtils.ts` (lines 523-528): split
on blank lines, trim each paragraph, XML-escape it, wrap it in `<p>`
tags, and join with newlines. -/
def formatChapterContent (content : Str) : Str :=
  List.intercalate (str "\n")
    ((splitSeq2 content).map
      (fun paragraph => str "<p>" ++ escapeXML (trimJS paragraph) ++ str "</p>"))

/-- The allowed upload extensions from `documentUtils.ts` line 198. -/
def allowedExtensions : List Str :=
  [str "pdf", str "docx", str "odt", str "rtf", str "txt",
   str "md", str "markdown", str "ods", str "odp"]

/-- JavaScript `String.prototype.toLowerCase`, restricted to the ASCII
case mapping (the extensions compared against are ASCII). -/
def toLowerStr (s : Str) : Str := s.map Char.toLower

/-- `filename.split('.')` (JavaScript semantics: `"".split('.')` is
`[""]`, a trailing separator yields a trailing empty component). -/
def splitOnDot : Str → List Str
  | [] => [[]]
  | a :: as =>
    match splitOnDot as with
    | [] => [[a]]
    | h :: t => if a = '.' then [] :: h :: t else (a :: h) :: t

/-- `validateFileType` from `documentUtils.ts` (lines 197-201): lower-case
the filename, split on dots, take the last component (`.pop()`), and
test membership in the allowed extension list. -/
def validateFileType (filename : Str) : Bool :=
  allowedExtensions.contains (((splitOnDot (toLowerStr filename)).getLast?).getD [])

example : escapeXML (str "a<b") = str "a&lt;b" := by decide
example : escapeXML ('&' :: quoteChar :: []) = str "&amp;&quot;" := by decide
example : sanitizeFilename (str "Test Title!") = str "test_title_" := by decide
example : sanitizeFilename (str "a!!b") = str "a__b" := by decide
example : generateUUID [] = str "00000000-0000-4000-8000-000000000000" := by decide
example : generateUUID [1] = str "10000000-0000-4000-8000-000000000000" := by decide
example : splitSeq2 (str "a\n\nb") = [str "a", str "b"] := by decide
example : splitSeq2 (str " a") = [str " a"] := by decide
example : formatChapterContent (str "Para one.\n\nPara two.") =
    str "<p>Para one.</p>\n<p>Para two.</p>" := by decide
example : formatChapterContent (str " a") = str "<p>a</p>" := by decide
example : validateFileType (str "book.PDF") = true := by decide
example : validateFileType (str "pdf") = true := by decide
example : validateFileType (str "book.exe") = false := by decide
example : validateFileType (str "") = false := by decide
example : validateFileType (str "file.") = false := by decide

/-! ## Data model (`@shared/schema` Book plus the export option object) -/

/-- One entry of `Book.content` (a chapter-content snapshot). Only
`title` and `content` are read by the export code. -/
structure ChapterEntry where
  title : Str
  content : Str
  order : Int := 0
  wordCount : Nat := 0
deriving DecidableEq

/-- The Book record fields consumed by the export packager and the
storage layer (remaining schema fields are never read by the verified
operations). -/
structure Book where
  id : Str
  title : Str
  author : Str
  genre : Str
  description : Option Str := none
  content : Option (List ChapterEntry) := none
  coverUrl : Option Str := none
deriving DecidableEq

/-- `Array.isArray(book.content) ? book.content : []`. -/
def chaptersOf (b : Book) : List ChapterEntry := b.content.getD []

/-- JavaScript truthiness of an optional string (`undefined`/`null` and
`''` are falsy). -/
def truthyOpt : Option Str → Bool
  | none => false
  | some s => !s.isEmpty

/-- `s || ''` for an optional string. -/
def orEmptyStr : Option Str → Str
  | none => []
  | some s => s

/-- `s || d` for an optional string (JS `||`: empty string is falsy). -/
def jsOrStr (o : Option Str) (d : Str) : Str :=
  match o with
  | none => d
  | some s => if s.isEmpty then d else s

/-- Decimal rendering of a natural number (`${n}` interpolation). -/
def natToStr (n : Nat) : Str := (Nat.repr n).data

/-- `n || d` for an optional number, rendered for interpolation (JS
`||`: the number 0 is falsy). -/
def jsOrNat (o : Option Nat) (d : Nat) : Str :=
  match o with
  | none => natToStr d
  | some n => if n = 0 then natToStr d else natToStr n

inductive ExportFormat where
  | kindle | epub | pdf | docx | printReady
deriving DecidableEq

inductive PaperSize where
  | usTrade | usLetter | a4 | custom
deriving DecidableEq

/-- Page margins in inches; the values are only ever interpolated into
CSS, so they are modelled as their decimal renderings. -/
structure Margins where
  top : Str
  bottom : Str
  left : Str
  right : Str
deriving DecidableEq

/-- `ExportOptions` from `exportUtils.ts` (lines 6-19). `lineSpacing`
is a (possibly fractional) JS number used only in interpolation, so it
is modelled as its rendering. -/
structure ExportOptions where
  format : ExportFormat
  includeImages : Bool
  paperSize : Option PaperSize := none
  margins : Option Margins := none
  fontSize : Option Nat := none
  fontFamily : Option Str := none
  lineSpacing : Option Str := none
deriving DecidableEq

/-! ## EPUB package pieces (`createContentOPF`, `createTOCNCX`, pages).
The XML template strings of `content.opf` and `toc.ncx` are modelled
structurally: each interpolated slot of the template becomes a field,
and the repeated `chapters.map(...)` blocks become lists. -/

/-- One `<item .../>` of the OPF `<manifest>`. -/
structure ManifestItem where
  id : Str
  href : Str
  mediaType : Str
deriving DecidableEq

/-- The interpolated content of the `content.opf` template
(`exportUtils.ts` lines 198-228). `spine` holds the `idref`s of the
`<itemref/>` elements in order. -/
structure OPFPackage where
  title : Str
  creator : Str
  subject : Str
  description : Str
  language : Str
  identifier : Str
  manifest : List ManifestItem
  spine : List Str
  guideCover : Bool
deriving DecidableEq

/-- The four fixed manifest items of the template (lines 211-214). -/
def staticManifestItems : List ManifestItem :=
  [⟨str "ncx", str "toc.ncx", str "application/x-dtbncx+xml"⟩,
   ⟨str "stylesheet", str "stylesheet.css", str "text/css"⟩,
   ⟨str "title", str "title.xhtml", str "application/xhtml+xml"⟩,
   ⟨str "toc", str "toc.xhtml", str "application/xhtml+xml"⟩]

/-- The manifest item generated for the chapter at index `i` (line
216). -/
def chapterManifestItem (i : Nat) : ManifestItem :=
  ⟨str "chapter" ++ natToStr (i + 1),
   str "chapter" ++ natToStr (i + 1) ++ str ".xhtml",
   str "application/xhtml+xml"⟩

/-- `createContentOPF` from `exportUtils.ts` (lines 194-229); the
`generateUUID()` call site receives its result as the `uuid`
argument. -/
def createContentOPF (book : Book) (options : ExportOptions) (uuid : Str) :
    OPFPackage :=
  let chapters := chaptersOf book
  { title := escapeXML book.title
    creator := escapeXML book.author
    subject := escapeXML book.genre
    description := escapeXML (orEmptyStr book.description)
    language := str "en"
    identifier := uuid
    manifest :=
      staticManifestItems
        ++ chapters.enum.map (fun p => chapterManifestItem p.1)
        ++ (if options.includeImages && truthyOpt book.coverUrl then
              [⟨str "cover-img", str "cover.jpg", str "image/jpeg"⟩]
            else [])
    spine :=
      [str "title", str "toc"]
        ++ chapters.enum.map (fun p => str "chapter" ++ natToStr (p.1 + 1))
    guideCover := options.includeImages && truthyOpt book.coverUrl }

/-- One `<navPoint>` of the NCX `<navMap>`. -/
structure NavPoint where
  id : Str
  playOrder : Nat
  label : Str
  src : Str
deriving DecidableEq

/-- The interpolated content of the `toc.ncx` template. -/
structure NCX where
  uid : Str
  docTitle : Str
  navMap : List NavPoint
deriving DecidableEq

/-- `createTOCNCX` from `exportUtils.ts` (lines 231-263); the
`generateUUID()` call site receives its result as the `uuid`
argument. -/
def createTOCNCX (book : Book) (uuid : Str) : NCX :=
  let chapters := chaptersOf book
  { uid := uuid
    docTitle := escapeXML book.title
    navMap :=
      [⟨str "navpoint-1", 1, str "Title Page", str "title.xhtml"⟩,
       ⟨str "navpoint-2", 2, str "Table of Contents", str "toc.xhtml"⟩]
        ++ chapters.enum.map (fun p =>
             ⟨str "navpoint-" ++ natToStr (p.1 + 3), p.1 + 3,
              escapeXML p.2.title,
              str "chapter" ++ natToStr (p.1 + 1) ++ str ".xhtml"⟩) }

/-- `createContainerXML` (lines 185-192). -/
def createContainerXML : Str :=
  str "<?xml version=\"1.0\" encoding=\"UTF-8\"?>\n<container version=\"1.0\" xmlns=\"urn:oasis:names:tc:opendocument:xmlns:container\">\n  <rootfiles>\n    <rootfile full-path=\"OEBPS/content.opf\" media-type=\"application/oebps-package+xml\"/>\n  </rootfiles>\n</container>"

/-- `createKindleCSS` (lines 265-310). -/
def createKindleCSS (options : ExportOptions) : Str :=
  str "\n/* Kindle-optimized styles */\nbody \x7b\n  font-family: "
    ++ jsOrStr options.fontFamily (str "Georgia, serif")
    ++ str ";\n  font-size: " ++ jsOrNat options.fontSize 12
    ++ str "pt;\n  line-height: " ++ jsOrStr options.lineSpacing (str "1.6")
    ++ str ";\n  margin: 0;\n  padding: 1em;\n\x7d\n\nh1, h2, h3 \x7b\n  page-break-before: always;\n  margin-top: 2em;\n  margin-bottom: 1em;\n  font-weight: bold;\n\x7d\n\nh1 \x7b font-size: 1.5em; \x7d\nh2 \x7b font-size: 1.3em; \x7d\nh3 \x7b font-size: 1.1em; \x7d\n\np \x7b\n  text-align: justify;\n  text-indent: 1.5em;\n  margin: 0;\n  margin-bottom: 0.5em;\n\x7d\n\n.title-page \x7b\n  text-align: center;\n  page-break-after: always;\n\x7d\n\n.chapter-title \x7b\n  text-align: center;\n  font-size: 1.5em;\n  margin-bottom: 2em;\n  page-break-before: always;\n\x7d\n\n@media amzn-kf8 \x7b\n  body \x7b font-family: serif; \x7d\n\x7d\n"

/-- `createEPUBCSS` (lines 312-347). -/
def createEPUBCSS (options : ExportOptions) : Str :=
  str "\n/* Standard EPUB styles */\nbody \x7b\n  font-family: "
    ++ jsOrStr options.fontFamily (str "Georgia, serif")
    ++ str ";\n  font-size: " ++ jsOrNat options.fontSize 12
    ++ str "pt;\n  line-height: " ++ jsOrStr options.lineSpacing (str "1.6")
    ++ str ";\n  margin: 0;\n  padding: 1em;\n\x7d\n\nh1, h2, h3 \x7b\n  margin-top: 2em;\n  margin-bottom: 1em;\n  font-weight: bold;\n\x7d\n\np \x7b\n  text-align: justify;\n  text-indent: 1.5em;\n  margin-bottom: 0.5em;\n\x7d\n\n.title-page \x7b\n  text-align: center;\n  page-break-after: always;\n\x7d\n\n.chapter-title \x7b\n  text-align: center;\n  font-size: 1.5em;\n  margin-bottom: 2em;\n  page-break-before: always;\n\x7d\n"

/-- `createTitlePage` (lines 349-364); the `<p>` block is only emitted
for a truthy `book.description`. -/
def createTitlePage (book : Book) : Str :=
  str "<?xml version=\"1.0\" encoding=\"UTF-8\"?>\n<html xmlns=\"http://www.w3.org/1999/xhtml\">\n<head>\n  <title>" ++ escapeXML book.title
    ++ str "</title>\n  <link rel=\"stylesheet\" type=\"text/css\" href=\"stylesheet.css\"/>\n</head>\n<body>\n  <div class=\"title-page\">\n    <h1>" ++ escapeXML book.title
    ++ str "</h1>\n    <h2>by " ++ escapeXML book.author
    ++ str "</h2>\n    "
    ++ (if truthyOpt book.description then
          str "<p>" ++ escapeXML (orEmptyStr book.description) ++ str "</p>"
        else [])
    ++ str "\n  </div>\n</body>\n</html>"

/-- `createTOCPage` (lines 366-384). -/
def createTOCPage (book : Book) : Str :=
  str "<?xml version=\"1.0\" encoding=\"UTF-8\"?>\n<html xmlns=\"http://www.w3.org/1999/xhtml\">\n<head>\n  <title>Table of Contents</title>\n  <link rel=\"stylesheet\" type=\"text/css\" href=\"stylesheet.css\"/>\n</head>\n<body>\n  <h1>Table of Contents</h1>\n  <ul>\n    "
    ++ List.intercalate (str "\n    ")
         ((chaptersOf book).enum.map (fun p =>
           str "<li><a href=\"chapter" ++ natToStr (p.1 + 1) ++ str ".xhtml\">"
             ++ escapeXML p.2.title ++ str "</a></li>"))
    ++ str "\n  </ul>\n</body>\n</html>"

/-- `createChapterXHTML` (lines 386-400). -/
def createChapterXHTML (chapter : ChapterEntry) (_options : ExportOptions) : Str :=
  str "<?xml version=\"1.0\" encoding=\"UTF-8\"?>\n<html xmlns=\"http://www.w3.org/1999/xhtml\">\n<head>\n  <title>" ++ escapeXML chapter.title
    ++ str "</title>\n  <link rel=\"stylesheet\" type=\"text/css\" href=\"stylesheet.css\"/>\n</head>\n<body>\n  <h1 class=\"chapter-title\">" ++ escapeXML chapter.title
    ++ str "</h1>\n  <div class=\"chapter-content\">\n    "
    ++ formatChapterContent chapter.content
    ++ str "\n  </div>\n</body>\n</html>"

/-- `createPDFHTML` (lines 402-459). -/
def createPDFHTML (book : Book) (options : ExportOptions) : Str :=
  let chapters := chaptersOf book
  let margins := options.margins.getD ⟨str "1", str "1", str "1", str "1"⟩
  str "<!DOCTYPE html>\n<html>\n<head>\n  <title>" ++ escapeXML book.title
    ++ str "</title>\n  <style>\n    @page \x7b\n      size: "
    ++ (if options.paperSize = some PaperSize.a4 then str "A4" else str "8.5in 11in")
    ++ str ";\n      margin: " ++ margins.top ++ str "in " ++ margins.right
    ++ str "in " ++ margins.bottom ++ str "in " ++ margins.left
    ++ str "in;\n    \x7d\n    \n    body \x7b\n      font-family: "
    ++ jsOrStr options.fontFamily (str "Georgia, serif")
    ++ str ";\n      font-size: " ++ jsOrNat options.fontSize 12
    ++ str "pt;\n      line-height: " ++ jsOrStr options.lineSpacing (str "1.6")
    ++ str ";\n    \x7d\n    \n    .title-page \x7b\n      text-align: center;\n      page-break-after: always;\n      padding-top: 25%;\n    \x7d\n    \n    .chapter \x7b\n      page-break-before: always;\n    \x7d\n    \n    .chapter-title \x7b\n      font-size: 1.5em;\n      margin-bottom: 2em;\n      text-align: center;\n    \x7d\n    \n    p \x7b\n      text-align: justify;\n      text-indent: 1.5em;\n      margin-bottom: 0.5em;\n    \x7d\n  </style>\n</head>\n<body>\n  <div class=\"title-page\">\n    <h1>"
    ++ escapeXML book.title ++ str "</h1>\n    <h2>by " ++ escapeXML book.author
    ++ str "</h2>\n  </div>\n  \n  "
    ++ (chapters.map (fun chapter =>
          str "\n    <div class=\"chapter\">\n      <h1 class=\"chapter-title\">"
            ++ escapeXML chapter.title ++ str "</h1>\n      "
            ++ formatChapterContent chapter.content
            ++ str "\n    </div>\n  ")).flatten
    ++ str "\n</body>\n</html>"

/-- `createWordHTML` (lines 461-510). -/
def createWordHTML (book : Book) (options : ExportOptions) : Str :=
  let chapters := chaptersOf book
  str "<!DOCTYPE html>\n<html xmlns:o=\"urn:schemas-microsoft-com:office:office\" xmlns:w=\"urn:schemas-microsoft-com:office:word\">\n<head>\n  <meta charset=\"UTF-8\">\n  <title>" ++ escapeXML book.title
    ++ str "</title>\n  <style>\n    body \x7b\n      font-family: "
    ++ jsOrStr options.fontFamily (str "Times New Roman, serif")
    ++ str ";\n      font-size: " ++ jsOrNat options.fontSize 12
    ++ str "pt;\n      line-height: " ++ jsOrStr options.lineSpacing (str "1.6")
    ++ str ";\n    \x7d\n    \n    .title-page \x7b\n      text-align: center;\n      page-break-after: always;\n    \x7d\n    \n    .chapter-title \x7b\n      font-size: 16pt;\n      font-weight: bold;\n      text-align: center;\n      margin-bottom: 2em;\n      page-break-before: always;\n    \x7d\n    \n    p \x7b\n      text-align: justify;\n      text-indent: 0.5in;\n      margin-bottom: 6pt;\n    \x7d\n  </style>\n</head>\n<body>\n  <div class=\"title-page\">\n    <h1>"
    ++ escapeXML book.title ++ str "</h1>\n    <h2>by " ++ escapeXML book.author
    ++ str "</h2>\n  </div>\n  \n  "
    ++ (chapters.map (fun chapter =>
          str "\n    <div class=\"chapter\">\n      <h1 class=\"chapter-title\">"
            ++ escapeXML chapter.title ++ str "</h1>\n      "
            ++ formatChapterContent chapter.content
            ++ str "\n    </div>\n  ")).flatten
    ++ str "\n</body>\n</html>"

/-- `createPrintReadyHTML` (lines 512-519): delegate to `createPDFHTML`
with the paperback defaults filled in. -/
def createPrintReadyHTML (book : Book) (options : ExportOptions) : Str :=
  createPDFHTML book
    { options with
      paperSize := some (options.paperSize.getD PaperSize.usTrade)
      margins := some (options.margins.getD
        ⟨str "0.75", str "0.75", str "0.75", str "0.75"⟩) }

/-! ## Export pipeline effect model. Browser effects (`zip.generateAsync`,
`fetch` of the cover, `window.open`, `saveAs`) are modelled by an
explicit environment of oracle results; `saveAs` calls are collected in
`downloads`, `document.write`+`print` into an opened window in
`printed`, and a thrown error (its `.message`) in `result`. -/

/-- An opaque binary blob: either a string wrapped by `new Blob([s])`
or data coming from the environment (zip serialization, fetch). -/
inductive Blob where
  | fromString (s : Str)
  | external (tag : Nat)
deriving DecidableEq

/-- One entry added to the in-progress zip archive, keyed by its full
path. `content.opf` and `toc.ncx` are stored structurally. -/
inductive ZipEntry where
  | text (s : Str)
  | opf (p : OPFPackage)
  | ncx (n : NCX)
  | blob (b : Blob)
deriving DecidableEq

/-- A `saveAs(content, name)` call. -/
structure Download where
  data : Blob
  name : Str
deriving DecidableEq

/-- Oracle results for the effectful steps of one export run. `u1` and
`u2` are the random draw streams consumed by the first and second
`generateUUID()` call; `windowOpen` is whether `window.open` returns a
window. -/
structure ExportEnv where
  zipGenerate : List (Str × ZipEntry) → Except Str Blob
  fetchCover : Str → Except Str Blob
  windowOpen : Bool
  u1 : List Nat
  u2 : List Nat

instance : DecidableEq (Except Str Unit) := fun x y =>
  match x, y with
  | Except.ok (), Except.ok () => isTrue rfl
  | Except.error a, Except.error b =>
    if h : a = b then isTrue (by rw [h])
    else isFalse (by intro he; injection he; contradiction)
  | Except.ok _, Except.error _ => isFalse (by intro h; exact Except.noConfusion h)
  | Except.error _, Except.ok _ => isFalse (by intro h; exact Except.noConfusion h)

/-- The observable outcome of an export call: the settled promise (with
the thrown message on rejection), the `saveAs` downloads triggered, and
the documents written to a print window. -/
structure ExportOutcome where
  result : Except Str Unit
  downloads : List Download
  printed : List Str
deriving DecidableEq

/-- The archive entries built by `exportToKindle`/`exportToEPUB` before
serialization (`css` differs between the two). The cover entry is added
only when `book.coverUrl` is truthy, `includeImages` is set, and the
fetch succeeds; a failed fetch is logged and skipped. -/
def buildEpubZip (env : ExportEnv) (book : Book) (options : ExportOptions)
    (css : Str) : List (Str × ZipEntry) :=
  let base :=
    [(str "mimetype", ZipEntry.text (str "application/epub+zip")),
     (str "META-INF/container.xml", ZipEntry.text createContainerXML),
     (str "OEBPS/content.opf",
      ZipEntry.opf (createContentOPF book options (generateUUID env.u1))),
     (str "OEBPS/toc.ncx", ZipEntry.ncx (createTOCNCX book (generateUUID env.u2))),
     (str "OEBPS/stylesheet.css", ZipEntry.text css),
     (str "OEBPS/title.xhtml", ZipEntry.text (createTitlePage book)),
     (str "OEBPS/toc.xhtml", ZipEntry.text (createTOCPage book))]
      ++ (chaptersOf book).enum.map (fun p =>
           (str "OEBPS/chapter" ++ natToStr (p.1 + 1) ++ str ".xhtml",
            ZipEntry.text (createChapterXHTML p.2 options)))
  if truthyOpt book.coverUrl && options.includeImages then
    match env.fetchCover (orEmptyStr book.coverUrl) with
    | Except.ok b => base ++ [(str "OEBPS/cover.jpg", ZipEntry.blob b)]
    | Except.error _ => base
  else base

/-- `exportToKindle` (lines 48-94): build the archive, serialize it,
download it as `<title>_kindle.epub`. -/
def exportToKindle (env : ExportEnv) (book : Book) (options : ExportOptions) :
    ExportOutcome :=
  match env.zipGenerate (buildEpubZip env book options (createKindleCSS options)) with
  | Except.error m => ⟨Except.error m, [], []⟩
  | Except.ok content =>
    ⟨Except.ok (), [⟨content, sanitizeFilename book.title ++ str "_kindle.epub"⟩], []⟩

/-- `exportToEPUB` (lines 96-132). -/
def exportToEPUB (env : ExportEnv) (book : Book) (options : ExportOptions) :
    ExportOutcome :=
  match env.zipGenerate (buildEpubZip env book options (createEPUBCSS options)) with
  | Except.error m => ⟨Except.error m, [], []⟩
  | Except.ok content =>
    ⟨Except.ok (), [⟨content, sanitizeFilename book.title ++ str ".epub"⟩], []⟩

/-- `exportToPDF` (lines 134-154): write the HTML into a print window;
when `window.open` is blocked, fall back to downloading the HTML. -/
def exportToPDF (env : ExportEnv) (book : Book) (options : ExportOptions) :
    ExportOutcome :=
  let htmlContent := createPDFHTML book options
  if env.windowOpen then ⟨Except.ok (), [], [htmlContent]⟩
  else
    ⟨Except.ok (),
     [⟨Blob.fromString htmlContent, sanitizeFilename book.title ++ str "_print.html"⟩],
     []⟩

/-- `exportToDocx` (lines 156-165): download Word-compatible HTML under
a `.docx` name. -/
def exportToDocx (_env : ExportEnv) (book : Book) (options : ExportOptions) :
    ExportOutcome :=
  ⟨Except.ok (),
   [⟨Blob.fromString (createWordHTML book options),
     sanitizeFilename book.title ++ str ".docx"⟩],
   []⟩

/-- `exportPrintReady` (lines 167-181): write the HTML into a print
window; there is no `else` branch, so a blocked window produces
nothing. -/
def exportPrintReady (env : ExportEnv) (book : Book) (options : ExportOptions) :
    ExportOutcome :=
  let htmlContent := createPrintReadyHTML book options
  if env.windowOpen then ⟨Except.ok (), [], [htmlContent]⟩
  else ⟨Except.ok (), [], []⟩

/-- The `switch` dispatch inside the `try` block of `exportBook`
(lines 23-41); `options.format` is one of the five literal formats, so
the `default` arm is unreachable. -/
def exportDispatch (env : ExportEnv) (book : Book) (options : ExportOptions) :
    ExportOutcome :=
  match options.format with
  | ExportFormat.kindle => exportToKindle env book options
  | ExportFormat.epub => exportToEPUB env book options
  | ExportFormat.pdf => exportToPDF env book options
  | ExportFormat.docx => exportToDocx env book options
  | ExportFormat.printReady => exportPrintReady env book options

/-- `exportBook` (lines 21-46): run the dispatch and wrap any thrown
error message into `"Export failed: <message>"`. -/
def exportBook (env : ExportEnv) (book : Book) (options : ExportOptions) :
    ExportOutcome :=
  let r := exportDispatch env book options
  match r.result with
  | Except.error m => { r with result := Except.error (str "Export failed: " ++ m) }
  | Except.ok _ => r

/-! ## In-memory storage layer (`MemStorage` in the server routes file).
Each JavaScript `Map<id, entity>` is modelled as an insertion-ordered
list of entities; the storage methods only ever use the entity's own
`id` as its key. `randomUUID()` results are passed explicitly.
Timestamp fields are never read by the verified operations and are
omitted. -/

/-- A stored Chapter row (schema `chapters` table). -/
structure Chapter where
  id : Str
  bookId : Str
  title : Str
  content : Str
  order : Int
  wordCount : Nat := 0
  status : Str := str "draft"
deriving DecidableEq

/-- A stored Cover row (schema `covers` table; `isSelected` is a string
`"true"`/`"false"`). -/
structure Cover where
  id : Str
  bookId : Str
  imageUrl : Str
  style : Str
  colorScheme : Str
  isSelected : Str := str "false"
deriving DecidableEq

/-- A stored User row (schema `users` table). -/
structure User where
  id : Str
  username : Str
  password : Str
deriving DecidableEq

/-- `InsertChapter` (the `chapters` insert schema: everything but the
generated id and timestamps). -/
structure InsertChapter where
  bookId : Str
  title : Str
  content : Str
  order : Int
  wordCount : Nat := 0
  status : Str := str "draft"
deriving DecidableEq

/-- The four maps of `MemStorage`. -/
structure MemStorage where
  books : List Book
  chapters : List Chapter
  covers : List Cover
  users : List User
deriving DecidableEq

/-- The freshly constructed storage (all maps empty). -/
def emptyStorage : MemStorage := ⟨[], [], [], []⟩

/-- `Map.set(id, chapter)` where the key is `chapter.id`: replace an
existing entry in place, otherwise append. -/
def chapterMapSet (l : List Chapter) (c : Chapter) : List Chapter :=
  if l.any (fun x => decide (x.id = c.id)) then
    l.map (fun x => if x.id = c.id then c else x)
  else l ++ [c]

/-- `MemStorage.deleteBook` (part_005 lines 473-484): collect the
chapters and covers whose `bookId` matches, delete each by its own id,
then delete the book, returning whether the book existed
(`Map.delete`'s result). -/
def deleteBook (id : Str) (st : MemStorage) : Bool × MemStorage :=
  let chaptersToDelete := st.chapters.filter (fun c => decide (c.bookId = id))
  let chapters1 := chaptersToDelete.foldl
    (fun m c => m.filter (fun x => !decide (x.id = c.id))) st.chapters
  let coversToDelete := st.covers.filter (fun c => decide (c.bookId = id))
  let covers1 := coversToDelete.foldl
    (fun m c => m.filter (fun x => !decide (x.id = c.id))) st.covers
  let found := st.books.any (fun b => decide (b.id = id))
  let books1 := st.books.filter (fun b => !decide (b.id = id))
  (found, { st with books := books1, chapters := chapters1, covers := covers1 })

/-- `MemStorage.getChaptersByBookId` (part_005 lines 487-491): filter by
`bookId`, sort ascending by `order` (stable, matching the JS comparator
`a.order - b.order`). -/
def getChaptersByBookId (bookId : Str) (st : MemStorage) : List Chapter :=
  (st.chapters.filter (fun c => decide (c.bookId = bookId))).mergeSort
    (fun a b => decide (a.order ≤ b.order))

/-- `MemStorage.createChapter` (part_005 lines 493-504): spread the
insert payload, attach the fresh id, store under that id, return the
chapter. No check that `bookId` refers to an existing book is
performed. -/
def createChapter (insertChapter : InsertChapter) (freshId : Str)
    (st : MemStorage) : Chapter × MemStorage :=
  let chapter : Chapter :=
    { id := freshId
      bookId := insertChapter.bookId
      title := insertChapter.title
      content := insertChapter.content
      order := insertChapter.order
      wordCount := insertChapter.wordCount
      status := insertChapter.status }
  (chapter, { st with chapters := chapterMapSet st.chapters chapter })

/-! ## Spec-side reference definitions (used to state round-trip and
refinement claims; written from the specification's words, to be
compared with the source-derived functions above). -/

/-- Modelled from the spec: a standard XML unescape — a left-to-right
scan replacing the five entities `&amp;` `&lt;` `&gt;` `&quot;` `&#39;`
by their characters, copying everything else. -/
def unescapeXML : Str → Str
  | '&' :: 'a' :: 'm' :: 'p' :: ';' :: r => '&' :: unescapeXML r
  | '&' :: 'l' :: 't' :: ';' :: r => '<' :: unescapeXML r
  | '&' :: 'g' :: 't' :: ';' :: r => '>' :: unescapeXML r
  | '&' :: 'q' :: 'u' :: 'o' :: 't' :: ';' :: r => quoteChar :: unescapeXML r
  | '&' :: '#' :: '3' :: '9' :: ';' :: r => aposChar :: unescapeXML r
  | c :: r => c :: unescapeXML r
  | [] => []

example : unescapeXML (str "&amp;lt;") = str "&lt;" := by decide
example : unescapeXML (escapeXML (str "a<&>b")) = str "a<&>b" := by decide

/-- The per-character action of `escapeXML` (the five sequential global
replacements never rewrite each other's output, so the whole function
acts independently on each input character). -/
def escapeChar (c : Char) : Str :=
  if c = '&' then str "&amp;"
  else if c = '<' then str "&lt;"
  else if c = '>' then str "&gt;"
  else if c = quoteChar then str "&quot;"
  else if c = aposChar then str "&#39;"
  else [c]

theorem escapeXML_append (x y : Str) :
    escapeXML (x ++ y) = escapeXML x ++ escapeXML y := by
  simp [escapeXML, replaceChar, List.flatMap_append]

theorem escapeXML_singleton (a : Char) : escapeXML [a] = escapeChar a := by
  by_cases h1 : a = '&'
  · subst h1; decide
  by_cases h2 : a = '<'
  · subst h2; decide
  by_cases h3 : a = '>'
  · subst h3; decide
  by_cases h4 : a = quoteChar
  · subst h4; decide
  by_cases h5 : a = aposChar
  · subst h5; decide
  simp [escapeXML, replaceChar, escapeChar, h1, h2, h3, h4, h5]

theorem escapeXML_eq_flatMap (l : Str) : escapeXML l = l.flatMap escapeChar := by
  induction l with
  | nil => rfl
  | cons a l ih =>
    have h : escapeXML (a :: l) = escapeXML ([a] ++ l) := rfl
    rw [h, escapeXML_append, escapeXML_singleton]
    simp [ih]

theorem unescapeXML_amp (r : Str) :
    unescapeXML ('&' :: 'a' :: 'm' :: 'p' :: ';' :: r) = '&' :: unescapeXML r := rfl

theorem unescapeXML_lt (r : Str) :
    unescapeXML ('&' :: 'l' :: 't' :: ';' :: r) = '<' :: unescapeXML r := rfl

theorem unescapeXML_gt (r : Str) :
    unescapeXML ('&' :: 'g' :: 't' :: ';' :: r) = '>' :: unescapeXML r := rfl

theorem unescapeXML_quot (r : Str) :
    unescapeXML ('&' :: 'q' :: 'u' :: 'o' :: 't' :: ';' :: r) =
      quoteChar :: unescapeXML r := rfl

theorem unescapeXML_apos (r : Str) :
    unescapeXML ('&' :: '#' :: '3' :: '9' :: ';' :: r) =
      aposChar :: unescapeXML r := rfl

set_option maxHeartbeats 1600000 in
theorem unescapeXML_cons_ne (a : Char) (r : Str) (h : ¬ a = '&') :
    unescapeXML (a :: r) = a :: unescapeXML r := by
  rw [unescapeXML.eq_def]
  split <;> simp_all

theorem unescapeXML_flatMap_escapeChar (l : Str) :
    unescapeXML (l.flatMap escapeChar) = l := by
  induction l with
  | nil => rfl
  | cons a l ih =>
    rw [List.flatMap_cons]
    by_cases h1 : a = '&'
    · subst h1
      show unescapeXML ('&' :: 'a' :: 'm' :: 'p' :: ';' :: l.flatMap escapeChar) =
        '&' :: l
      rw [unescapeXML_amp, ih]
    by_cases h2 : a = '<'
    · subst h2
      show unescapeXML ('&' :: 'l' :: 't' :: ';' :: l.flatMap escapeChar) = '<' :: l
      rw [unescapeXML_lt, ih]
    by_cases h3 : a = '>'
    · subst h3
      show unescapeXML ('&' :: 'g' :: 't' :: ';' :: l.flatMap escapeChar) = '>' :: l
      rw [unescapeXML_gt, ih]
    by_cases h4 : a = quoteChar
    · subst h4
      show unescapeXML ('&' :: 'q' :: 'u' :: 'o' :: 't' :: ';' :: l.flatMap escapeChar) =
        quoteChar :: l
      rw [unescapeXML_quot, ih]
    by_cases h5 : a = aposChar
    · subst h5
      show unescapeXML ('&' :: '#' :: '3' :: '9' :: ';' :: l.flatMap escapeChar) =
        aposChar :: l
      rw [unescapeXML_apos, ih]
    have he : escapeChar a = [a] := by
      simp [escapeChar, h1, h2, h3, h4, h5]
    rw [he]
    show unescapeXML (a :: l.flatMap escapeChar) = a :: l
    rw [unescapeXML_cons_ne a _ h1, ih]

/-- Character order agrees with the order of code points. -/
theorem char_le_iff (d c : Char) : d ≤ c ↔ d.toNat ≤ c.toNat := by
  rw [Char.le_def]
  exact Iff.rfl

theorem isAlnum_iff (c : Char) : isAlnum c = true ↔
    (97 ≤ c.toNat ∧ c.toNat ≤ 122) ∨ (65 ≤ c.toNat ∧ c.toNat ≤ 90) ∨
    (48 ≤ c.toNat ∧ c.toNat ≤ 57) := by
  simp [isAlnum, Char.le_def, UInt32.le_def, BitVec.le_def, Char.toNat, UInt32.toNat]
  tauto

theorem toLower_eq_self_of_not_upper (c : Char)
    (h : ¬(65 ≤ c.toNat ∧ c.toNat ≤ 90)) : c.toLower = c := by
  unfold Char.toLower
  rw [if_neg]
  intro hc
  exact h ⟨hc.1, hc.2⟩

theorem toNat_toLower_of_upper (c : Char) (h1 : 65 ≤ c.toNat) (h2 : c.toNat ≤ 90) :
    c.toLower.toNat = c.toNat + 32 := by
  unfold Char.toLower
  rw [if_pos ⟨h1, h2⟩]
  have hv : (c.toNat + 32).isValidChar := Or.inl (by omega)
  rw [Char.ofNat, dif_pos hv]
  rfl

theorem toLower_alnum_range (a : Char) (h : isAlnum a = true) :
    (97 ≤ a.toLower.toNat ∧ a.toLower.toNat ≤ 122) ∨
    (48 ≤ a.toLower.toNat ∧ a.toLower.toNat ≤ 57) := by
  rcases (isAlnum_iff a).1 h with h1 | h2 | h3
  · rw [toLower_eq_self_of_not_upper a (by omega)]
    left
    omega
  · left
    rw [toNat_toLower_of_upper a h2.1 h2.2]
    omega
  · rw [toLower_eq_self_of_not_upper a (by omega)]
    right
    omega

/-- The per-character action of `sanitizeFilename`. -/
def sanitizeChar (c : Char) : Char := if isAlnum c then c.toLower else '_'

theorem sanitizeFilename_eq_map (s : Str) :
    sanitizeFilename s = s.map sanitizeChar := by
  unfold sanitizeFilename
  rw [List.map_map]
  apply List.map_congr_left
  intro a _
  show Char.toLower (if isAlnum a then a else '_') = sanitizeChar a
  unfold sanitizeChar
  by_cases h : isAlnum a = true
  · simp [h]
  · simp [h]

theorem sanitizeChar_idem (a : Char) : sanitizeChar (sanitizeChar a) = sanitizeChar a := by
  unfold sanitizeChar
  by_cases h : isAlnum a = true
  · rw [if_pos h]
    have hr := toLower_alnum_range a h
    have halnum : isAlnum a.toLower = true := by
      rw [isAlnum_iff]
      rcases hr with h1 | h2
      · left; omega
      · right; right; omega
    rw [if_pos halnum]
    rcases hr with h1 | h2
    · rw [toLower_eq_self_of_not_upper a.toLower (by omega)]
    · rw [toLower_eq_self_of_not_upper a.toLower (by omega)]
  · rw [if_neg h]
    decide

/-- Modelled from the spec: replace every maximal run of consecutive
non-alphanumeric characters by a single underscore, lower-casing the
alphanumeric characters (the claim's reading of the sanitization rule).
The Boolean argument records whether an underscore was just emitted. -/
def collapseRunsAux (prevUnd : Bool) : Str → Str
  | [] => []
  | c :: rest =>
    if isAlnum c then c.toLower :: collapseRunsAux false rest
    else if prevUnd then collapseRunsAux true rest
    else '_' :: collapseRunsAux true rest

/-- Modelled from the spec: run-collapsing sanitization. -/
def sanitizeRunCollapse (s : Str) : Str := collapseRunsAux false s

/-- C8: applying the standard XML unescape to the output of `escapeXML`
recovers the original string exactly, for every input string (including
those containing the five special characters). -/
theorem C8_escapeXML_roundtrip (s : Str) : unescapeXML (escapeXML s) = s := by
  rw [escapeXML_eq_flatMap]
  exact unescapeXML_flatMap_escapeChar s

/-- C6 counterexample: on `"a!!b"` the code yields `"a__b"` (one
underscore per non-alphanumeric character), while the claimed
run-collapsing sanitization yields `"a_b"`; the two disagree. -/
theorem C6_counterexample :
    sanitizeFilename (str "a!!b") = str "a__b" ∧
    sanitizeRunCollapse (str "a!!b") = str "a_b" ∧
    sanitizeFilename (str "a!!b") ≠ sanitizeRunCollapse (str "a!!b") := by
  decide

/-- C6 (amended): `sanitizeFilename` replaces every single
non-alphanumeric character by its own underscore (a run of k characters
yields k underscores) and lower-cases the rest; consequently it
preserves length, produces only underscores, lowercase ASCII letters
and digits, and is idempotent. -/
theorem C6_sanitizeFilename_perChar (s : Str) :
    sanitizeFilename s = s.map sanitizeChar ∧
    (sanitizeFilename s).length = s.length ∧
    (∀ c ∈ sanitizeFilename s,
      c = '_' ∨ ('a' ≤ c ∧ c ≤ 'z') ∨ ('0' ≤ c ∧ c ≤ '9')) ∧
    sanitizeFilename (sanitizeFilename s) = sanitizeFilename s := by
  refine ⟨sanitizeFilename_eq_map s, ?_, ?_, ?_⟩
  · rw [sanitizeFilename_eq_map, List.length_map]
  · intro c hc
    rw [sanitizeFilename_eq_map] at hc
    obtain ⟨a, _, rfl⟩ := List.mem_map.1 hc
    unfold sanitizeChar
    by_cases h : isAlnum a = true
    · rw [if_pos h]
      rcases toLower_alnum_range a h with h1 | h2
      · right
        left
        rw [char_le_iff, char_le_iff]
        have ha : ('a').toNat = 97 := by decide
        have hz : ('z').toNat = 122 := by decide
        omega
      · right
        right
        rw [char_le_iff, char_le_iff]
        have h0 : ('0').toNat = 48 := by decide
        have h9 : ('9').toNat = 57 := by decide
        omega
    · rw [if_neg h]
      left
      rfl
  · rw [sanitizeFilename_eq_map, sanitizeFilename_eq_map, List.map_map]
    apply List.map_congr_left
    intro a _
    exact sanitizeChar_idem a

theorem splitSeq2_of_no_sep (s : Str) (h : hasBlankSep s = false) :
    splitSeq2 s = [s] := by
  induction s with
  | nil => rfl
  | cons a as ih =>
    cases as with
    | nil => rfl
    | cons b rest =>
      have hor := h
      simp only [hasBlankSep, Bool.or_eq_false_iff] at hor
      have h1 : ¬(a = '\n' ∧ b = '\n') := by
        intro ⟨ha, hb⟩
        subst ha
        subst hb
        simp at hor
      have h2 : hasBlankSep (b :: rest) = false := hor.2
      show splitSeq2 (a :: b :: rest) = [a :: b :: rest]
      rw [splitSeq2, if_neg h1, ih h2]

/-- C7 counterexample: `" a"` contains no blank-line separator, yet
`formatChapterContent` trims the paragraph, so the single `<p>` body is
`"a"`, not the XML-escape of the original `" a"`. -/
theorem C7_counterexample :
    hasBlankSep (str " a") = false ∧
    formatChapterContent (str " a") ≠
      str "<p>" ++ escapeXML (str " a") ++ str "</p>" := by
  decide

/-- C7 (amended): on content with no blank-line separator,
`formatChapterContent` produces exactly one paragraph element whose body
is the XML-escaped, whitespace-trimmed original text. -/
theorem C7_formatChapterContent_single (s : Str) (h : hasBlankSep s = false) :
    formatChapterContent s = str "<p>" ++ escapeXML (trimJS s) ++ str "</p>" := by
  unfold formatChapterContent
  rw [splitSeq2_of_no_sep s h]
  simp [List.intercalate]

/-- C7 witness: the amended statement applied to the concrete
non-trimmed content `"hello"`. -/
theorem C7_witness :
    hasBlankSep (str "hello") = false ∧
    formatChapterContent (str "hello") =
      str "<p>" ++ escapeXML (trimJS (str "hello")) ++ str "</p>" :=
  ⟨by decide, C7_formatChapterContent_single (str "hello") (by decide)⟩

/-- Not-a-dot test used to describe the trailing component. -/
def notDot (c : Char) : Bool := !(c = '.')

theorem splitOnDot_ne_nil (s : Str) : splitOnDot s ≠ [] := by
  cases s with
  | nil => simp [splitOnDot]
  | cons a as =>
    simp only [splitOnDot]
    rcases hsp : splitOnDot as with _ | ⟨h1, t⟩
    · simp
    · by_cases ha : a = '.' <;> simp [ha]

theorem splitOnDot_cons (a : Char) (as : Str) :
    splitOnDot (a :: as) =
      if a = '.' then [] :: splitOnDot as
      else (a :: (splitOnDot as).headD []) :: (splitOnDot as).tail := by
  simp only [splitOnDot]
  rcases hsp : splitOnDot as with _ | ⟨h1, t⟩
  · exact absurd hsp (splitOnDot_ne_nil as)
  · by_cases ha : a = '.' <;> simp [ha]

theorem splitOnDot_eq_single (s : Str) (h : ¬ '.' ∈ s) : splitOnDot s = [s] := by
  induction s with
  | nil => rfl
  | cons a as ih =>
    have ha : ¬ a = '.' := by
      intro e
      exact h (by rw [← e]; exact List.mem_cons_self a as)
    have has : ¬ '.' ∈ as := fun m => h (List.mem_cons_of_mem a m)
    rw [splitOnDot_cons, if_neg ha, ih has]
    rfl

theorem two_le_length_splitOnDot (s : Str) (h : '.' ∈ s) :
    2 ≤ (splitOnDot s).length := by
  induction s with
  | nil => cases h
  | cons a as ih =>
    rw [splitOnDot_cons]
    rcases hsp : splitOnDot as with _ | ⟨h1, t⟩
    · exact absurd hsp (splitOnDot_ne_nil as)
    · rcases List.mem_cons.1 h with he | hm
      · rw [if_pos he.symm]
        simp
      · have h2 := ih hm
        rw [hsp] at h2
        by_cases ha : a = '.'
        · rw [if_pos ha]
          simp
        · rw [if_neg ha]
          simp at h2 ⊢
          omega

theorem takeWhile_eq_of_length {α : Type} (p : α → Bool) :
    ∀ l : List α, (List.takeWhile p l).length = l.length → List.takeWhile p l = l := by
  intro l
  induction l with
  | nil => intro; rfl
  | cons a l ih =>
    intro hl
    by_cases hp : p a = true
    · have hlen : (List.takeWhile p l).length = l.length := by
        rw [List.takeWhile_cons, if_pos hp] at hl
        simpa using hl
      rw [List.takeWhile_cons, if_pos hp, ih hlen]
    · rw [List.takeWhile_cons, if_neg hp] at hl
      simp at hl

theorem lastComponent_splitOnDot (s : Str) :
    ((splitOnDot s).getLast?).getD [] = (s.reverse.takeWhile notDot).reverse := by
  induction s with
  | nil => rfl
  | cons a as ih =>
    by_cases hm : '.' ∈ as
    · have hne : List.takeWhile notDot as.reverse ≠ as.reverse := by
        intro he
        have hall := List.takeWhile_eq_self_iff.1 he
        have h2 := hall '.' (by simp [hm])
        simp [notDot] at h2
      have hlen : ¬((List.takeWhile notDot as.reverse).length = as.reverse.length) :=
        fun hl => hne (takeWhile_eq_of_length notDot as.reverse hl)
      rw [List.reverse_cons, List.takeWhile_append, if_neg hlen]
      obtain hlen2 := two_le_length_splitOnDot as hm
      rcases hsp : splitOnDot as with _ | ⟨h1, t⟩
      · exact absurd hsp (splitOnDot_ne_nil as)
      rw [hsp] at hlen2
      have ht : t ≠ [] := by
        cases t
        · simp at hlen2
        · simp
      rw [splitOnDot_cons, hsp]
      by_cases ha : a = '.'
      · rw [if_pos ha, List.getLast?_cons_cons, ← hsp, ih]
      · rw [if_neg ha]
        cases t with
        | nil => exact absurd rfl ht
        | cons t1 ts =>
          simp only [List.headD_cons, List.tail_cons]
          rw [List.getLast?_cons_cons]
          have hih := ih
          rw [hsp, List.getLast?_cons_cons] at hih
          exact hih
    · have hall : List.takeWhile notDot as.reverse = as.reverse := by
        apply List.takeWhile_eq_self_iff.2
        intro x hx
        have hxs : x ∈ as := List.mem_reverse.1 hx
        have hne : ¬ x = '.' := fun e => hm (e ▸ hxs)
        simp [notDot, hne]
      rw [List.reverse_cons, List.takeWhile_append, if_pos (by rw [hall])]
      rw [splitOnDot_cons, splitOnDot_eq_single as hm]
      by_cases ha : a = '.'
      · rw [if_pos ha, List.getLast?_cons_cons]
        have hpa : notDot a = false := by simp [notDot, ha]
        simp [hall, hpa]
      · rw [if_neg ha]
        have hpa : notDot a = true := by simp [notDot, ha]
        simp [hall, hpa]

/-- C5 counterexample: the filename `"pdf"` contains no dot (so it has
no extension), yet `validateFileType` accepts it, because
`split('.').pop()` on a dotless name returns the whole name. -/
theorem C5_counterexample :
    ¬ '.' ∈ str "pdf" ∧ validateFileType (str "pdf") = true := by
  decide

/-- C5 (amended): `validateFileType` returns true exactly when the last
dot-separated component of the lower-cased filename — the portion after
the last dot, or the entire name when no dot occurs — is one of
pdf, docx, odt, rtf, txt, md, markdown, ods, odp. In particular a
dotless name equal to an allowed extension is accepted, and a name
ending in a dot is rejected. -/
theorem C5_validateFileType_iff (filename : Str) :
    validateFileType filename = true ↔
      ((toLowerStr filename).reverse.takeWhile notDot).reverse ∈ allowedExtensions := by
  unfold validateFileType
  rw [lastComponent_splitOnDot]
  exact List.elem_iff

/-! ## Concrete fixtures for witnesses and counterexamples -/

/-- A concrete Book with one chapter and no cover. -/
def book0 : Book :=
  { id := str "b1"
    title := str "Test Title!"
    author := str "A. Author"
    genre := str "Fiction"
    description := none
    content := some [⟨str "Ch 1", str "Para one.\n\nPara two.", 0, 4⟩]
    coverUrl := none }

/-- Concrete EPUB export options with images disabled. -/
def opts0 : ExportOptions := { format := ExportFormat.epub, includeImages := false }

/-- C10: the `dc:identifier` of `content.opf` and the `dtb:uid` of
`toc.ncx` inside the same archive come from two independent
`generateUUID()` calls, so there are random draws under which the two
identifiers of one exported archive differ. -/
theorem C10_independent_uuids :
    ∃ env : ExportEnv, ∃ p : OPFPackage, ∃ n : NCX,
      (str "OEBPS/content.opf", ZipEntry.opf p) ∈
        buildEpubZip env book0 opts0 (createEPUBCSS opts0) ∧
      (str "OEBPS/toc.ncx", ZipEntry.ncx n) ∈
        buildEpubZip env book0 opts0 (createEPUBCSS opts0) ∧
      p.identifier ≠ n.uid :=
  ⟨{ zipGenerate := fun _ => Except.ok (Blob.external 0)
     fetchCover := fun _ => Except.error (str "nofetch")
     windowOpen := true
     u1 := [0]
     u2 := [1] },
   createContentOPF book0 opts0 (generateUUID [0]),
   createTOCNCX book0 (generateUUID [1]),
   by decide, by decide, by decide⟩

/-- C1: with `includeImages = false`, the manifest of the package built
by `createContentOPF` is exactly the four fixed static items followed
by one item per chapter of `Book.content` (so `4 + N` items in all),
contains no cover item, and the spine lists `title`, `toc`, then the
chapters in content order. -/
theorem C1_contentOPF_manifest_spine (b : Book) (o : ExportOptions) (u : Str)
    (h : o.includeImages = false) :
    (createContentOPF b o u).manifest =
      staticManifestItems ++
        (chaptersOf b).enum.map (fun p => chapterManifestItem p.1) ∧
    (createContentOPF b o u).manifest.length = 4 + (chaptersOf b).length ∧
    (∀ it ∈ (createContentOPF b o u).manifest, it.id ≠ str "cover-img") ∧
    (createContentOPF b o u).spine =
      [str "title", str "toc"] ++
        (chaptersOf b).enum.map (fun p => str "chapter" ++ natToStr (p.1 + 1)) := by
  have hm : (createContentOPF b o u).manifest =
      staticManifestItems ++
        (chaptersOf b).enum.map (fun p => chapterManifestItem p.1) := by
    simp [createContentOPF, h]
  refine ⟨hm, ?_, ?_, rfl⟩
  · rw [hm]
    simp [staticManifestItems]
    omega
  · intro it hit
    rw [hm] at hit
    rcases List.mem_append.1 hit with hs | hc
    · exact (by decide : ∀ x ∈ staticManifestItems, x.id ≠ str "cover-img") it hs
    · obtain ⟨p, _, rfl⟩ := List.mem_map.1 hc
      intro he
      have h2 := congrArg (List.take 2) he
      rw [show chapterManifestItem p.1 =
          ⟨str "chapter" ++ natToStr (p.1 + 1),
           str "chapter" ++ natToStr (p.1 + 1) ++ str ".xhtml",
           str "application/xhtml+xml"⟩ from rfl] at h2
      simp only at h2
      rw [List.take_append_of_le_length (by decide)] at h2
      exact absurd h2 (by decide)

/-- C1 witness: the statement instantiated at the one-chapter fixture
book with images disabled. -/
theorem C1_witness :
    (createContentOPF book0 opts0 (str "u")).manifest.length =
      4 + (chaptersOf book0).length ∧
    (createContentOPF book0 opts0 (str "u")).spine =
      [str "title", str "toc"] ++
        (chaptersOf book0).enum.map (fun p => str "chapter" ++ natToStr (p.1 + 1)) :=
  ⟨(C1_contentOPF_manifest_spine book0 opts0 (str "u") rfl).2.1,
   (C1_contentOPF_manifest_spine book0 opts0 (str "u") rfl).2.2.2⟩

theorem exportDispatch_error (env : ExportEnv) (b : Book) (o : ExportOptions)
    (m : Str) (h : (exportDispatch env b o).result = Except.error m) :
    exportDispatch env b o = ⟨Except.error m, [], []⟩ := by
  cases hf : o.format
  case kindle =>
    simp only [exportDispatch, hf, exportToKindle] at h ⊢
    cases hz : env.zipGenerate (buildEpubZip env b o (createKindleCSS o)) with
    | error m2 =>
      rw [hz] at h
      have h2 : (Except.error m2 : Except Str Unit) = Except.error m := h
      injection h2 with hm2
      subst hm2
      rfl
    | ok blob =>
      rw [hz] at h
      exact Except.noConfusion (h : (Except.ok () : Except Str Unit) = Except.error m)
  case epub =>
    simp only [exportDispatch, hf, exportToEPUB] at h ⊢
    cases hz : env.zipGenerate (buildEpubZip env b o (createEPUBCSS o)) with
    | error m2 =>
      rw [hz] at h
      have h2 : (Except.error m2 : Except Str Unit) = Except.error m := h
      injection h2 with hm2
      subst hm2
      rfl
    | ok blob =>
      rw [hz] at h
      exact Except.noConfusion (h : (Except.ok () : Except Str Unit) = Except.error m)
  case pdf =>
    simp only [exportDispatch, hf, exportToPDF] at h
    cases hw : env.windowOpen <;> rw [hw] at h <;>
      exact Except.noConfusion (h : (Except.ok () : Except Str Unit) = Except.error m)
  case docx =>
    exact Except.noConfusion
      ((by simp only [exportDispatch, hf, exportToDocx] at h; exact h) :
        (Except.ok () : Except Str Unit) = Except.error m)
  case printReady =>
    simp only [exportDispatch, hf, exportPrintReady] at h
    cases hw : env.windowOpen <;> rw [hw] at h <;>
      exact Except.noConfusion (h : (Except.ok () : Except Str Unit) = Except.error m)

/-- C3: whenever the format dispatch inside `exportBook` rejects with a
thrown message `m`, `exportBook` rejects with exactly the single error
`"Export failed: " ++ m` and no `saveAs` download has been
triggered. -/
theorem C3_exportBook_wraps_errors (env : ExportEnv) (b : Book)
    (o : ExportOptions) (m : Str)
    (h : (exportDispatch env b o).result = Except.error m) :
    (exportBook env b o).result = Except.error (str "Export failed: " ++ m) ∧
    (exportBook env b o).downloads = [] := by
  have hd := exportDispatch_error env b o m h
  constructor <;> simp [exportBook, hd]

/-- The environment whose archive serialization step throws `"boom"`. -/
def failEnv : ExportEnv :=
  { zipGenerate := fun _ => Except.error (str "boom")
    fetchCover := fun _ => Except.error (str "nofetch")
    windowOpen := true
    u1 := []
    u2 := [] }

/-- C3 witness: a failing zip serialization during an epub export is
wrapped into one `"Export failed: boom"` rejection with no download. -/
theorem C3_witness :
    (exportDispatch failEnv book0 opts0).result = Except.error (str "boom") ∧
    ((exportBook failEnv book0 opts0).result =
        Except.error (str "Export failed: " ++ str "boom") ∧
      (exportBook failEnv book0 opts0).downloads = []) :=
  ⟨rfl, C3_exportBook_wraps_errors failEnv book0 opts0 (str "boom") rfl⟩

/-- The environment in which `window.open` is blocked. -/
def blockedEnv : ExportEnv :=
  { zipGenerate := fun _ => Except.ok (Blob.external 1)
    fetchCover := fun _ => Except.error (str "nofetch")
    windowOpen := false
    u1 := []
    u2 := [] }

/-- Concrete print-ready export options. -/
def optsPrint : ExportOptions :=
  { format := ExportFormat.printReady, includeImages := false }

/-- Concrete pdf export options. -/
def optsPdf : ExportOptions :=
  { format := ExportFormat.pdf, includeImages := false }

/-- C4 counterexample: with `window.open` blocked, the print-ready
export resolves successfully while producing no download and no printed
document — the claimed HTML-download fallback does not happen for the
print-ready format. -/
theorem C4_counterexample :
    exportBook blockedEnv book0 optsPrint = ⟨Except.ok (), [], []⟩ := by
  decide

/-- C4 (amended): when `window.open` is blocked, only the `pdf` format
falls back to offering the generated HTML document as a download; the
`print-ready` format silently produces nothing (no download, no print,
no error). -/
theorem C4_pdf_fallback (env : ExportEnv) (b : Book) (o : ExportOptions)
    (hw : env.windowOpen = false) :
    (o.format = ExportFormat.pdf →
      exportBook env b o =
        ⟨Except.ok (),
         [⟨Blob.fromString (createPDFHTML b o),
           sanitizeFilename b.title ++ str "_print.html"⟩], []⟩) ∧
    (o.format = ExportFormat.printReady →
      exportBook env b o = ⟨Except.ok (), [], []⟩) := by
  constructor <;> intro hf <;>
    simp [exportBook, exportDispatch, hf, exportToPDF, exportPrintReady, hw]

/-- C4 witness: the amended statement at the blocked-window environment
with the pdf format: the HTML document itself is downloaded. -/
theorem C4_witness :
    blockedEnv.windowOpen = false ∧
    exportBook blockedEnv book0 optsPdf =
      ⟨Except.ok (),
       [⟨Blob.fromString (createPDFHTML book0 optsPdf),
         sanitizeFilename book0.title ++ str "_print.html"⟩], []⟩ :=
  ⟨rfl, (C4_pdf_fallback blockedEnv book0 optsPdf rfl).1 rfl⟩

theorem foldl_filter_all {α β : Type} (q : β → α → Bool) (D : List β)
    (m : List α) :
    D.foldl (fun acc c => acc.filter (q c)) m =
      m.filter (fun x => D.all (fun c => q c x)) := by
  induction D generalizing m with
  | nil => simp
  | cons c D ih =>
    show D.foldl _ (m.filter (q c)) = _
    rw [ih (m.filter (q c)), List.filter_filter]
    apply List.filter_congr
    intro x _
    simp [List.all_cons, Bool.and_comm]

theorem delete_matching_by_key {α : Type} (key : α → Str) (p : α → Bool)
    (l : List α) (hnd : (l.map key).Nodup) :
    (l.filter p).foldl (fun m c => m.filter (fun x => !decide (key x = key c))) l =
      l.filter (fun x => !p x) := by
  rw [foldl_filter_all]
  apply List.filter_congr
  intro x hx
  by_cases hp : p x = true
  · rw [hp]
    apply List.all_eq_false.2
    exact ⟨x, List.mem_filter.2 ⟨hx, hp⟩, by simp⟩
  · rw [Bool.of_not_eq_true hp]
    apply List.all_eq_true.2
    intro c hc
    obtain ⟨hcmem, hcp⟩ := List.mem_filter.1 hc
    simp only [Bool.not_eq_true', decide_eq_false_iff_not]
    intro he
    have hcx : x = c := List.inj_on_of_nodup_map hnd hx hcmem he
    rw [hcx] at hp
    exact hp hcp

/-- C2 (amended): `deleteBook id` removes exactly the Chapters and
Covers whose `bookId` equals `id` together with the Book itself, leaves
users untouched, and returns whether the Book existed. When no Book
with that id exists it still returns false, but it nevertheless deletes
any orphan Chapters/Covers referencing `id`, so the state is left fully
unchanged only when additionally no Chapter or Cover references
`id`. -/
theorem C2_deleteBook (id : Str) (st : MemStorage)
    (hch : (st.chapters.map (fun c => c.id)).Nodup)
    (hcv : (st.covers.map (fun c => c.id)).Nodup) :
    (deleteBook id st).1 = st.books.any (fun b => decide (b.id = id)) ∧
    ((deleteBook id st).2).books =
      st.books.filter (fun b => !decide (b.id = id)) ∧
    ((deleteBook id st).2).chapters =
      st.chapters.filter (fun c => !decide (c.bookId = id)) ∧
    ((deleteBook id st).2).covers =
      st.covers.filter (fun c => !decide (c.bookId = id)) ∧
    ((deleteBook id st).2).users = st.users ∧
    (st.books.all (fun b => !decide (b.id = id)) = true →
      st.chapters.all (fun c => !decide (c.bookId = id)) = true →
      st.covers.all (fun c => !decide (c.bookId = id)) = true →
      (deleteBook id st).1 = false ∧ (deleteBook id st).2 = st) := by
  have hchapters : ((deleteBook id st).2).chapters =
      st.chapters.filter (fun c => !decide (c.bookId = id)) := by
    show (st.chapters.filter (fun c => decide (c.bookId = id))).foldl
        (fun m c => m.filter (fun x => !decide (x.id = c.id))) st.chapters = _
    exact delete_matching_by_key (fun c => c.id)
      (fun c => decide (c.bookId = id)) st.chapters hch
  have hcovers : ((deleteBook id st).2).covers =
      st.covers.filter (fun c => !decide (c.bookId = id)) := by
    show (st.covers.filter (fun c => decide (c.bookId = id))).foldl
        (fun m c => m.filter (fun x => !decide (x.id = c.id))) st.covers = _
    exact delete_matching_by_key (fun c => c.id)
      (fun c => decide (c.bookId = id)) st.covers hcv
  refine ⟨rfl, rfl, hchapters, hcovers, rfl, ?_⟩
  intro hb hc hv
  have hbooks : st.books.filter (fun b => !decide (b.id = id)) = st.books :=
    List.filter_eq_self.2 (List.all_eq_true.1 hb)
  constructor
  · show st.books.any (fun b => decide (b.id = id)) = false
    rw [List.any_eq_false]
    intro b hbmem
    have hbb := List.all_eq_true.1 hb b hbmem
    simp at hbb
    simp [hbb]
  · have h1 : st.chapters.filter (fun c => !decide (c.bookId = id)) = st.chapters :=
      List.filter_eq_self.2 (List.all_eq_true.1 hc)
    have h2 : st.covers.filter (fun c => !decide (c.bookId = id)) = st.covers :=
      List.filter_eq_self.2 (List.all_eq_true.1 hv)
    have e1 : ((deleteBook id st).2).books = st.books := by
      show st.books.filter (fun b => !decide (b.id = id)) = st.books
      exact hbooks
    have e2 : ((deleteBook id st).2).chapters = st.chapters := hchapters.trans h1
    have e3 : ((deleteBook id st).2).covers = st.covers := hcovers.trans h2
    have e4 : ((deleteBook id st).2).users = st.users := rfl
    have heta : (deleteBook id st).2 =
        (⟨((deleteBook id st).2).books, ((deleteBook id st).2).chapters,
          ((deleteBook id st).2).covers, ((deleteBook id st).2).users⟩ :
          MemStorage) := rfl
    rw [heta, e1, e2, e3, e4]

/-- A concrete storage state: one book (`b1`), one chapter of `b1`, one
chapter of another book, one cover of `b1`. -/
def stWit : MemStorage :=
  { books := [book0]
    chapters := [⟨str "c1", str "b1", str "t1", str "x", 1, 0, str "draft"⟩,
                 ⟨str "c2", str "b2", str "t2", str "y", 0, 0, str "draft"⟩]
    covers := [⟨str "k1", str "b1", str "u", str "s", str "cs", str "false"⟩]
    users := [] }

/-- C2 witness: the amended statement applied to the concrete populated
store, hypotheses (distinct chapter/cover ids) discharged by
computation. -/
theorem C2_witness :
    (deleteBook (str "b1") stWit).1 =
      stWit.books.any (fun b => decide (b.id = str "b1")) ∧
    ((deleteBook (str "b1") stWit).2).chapters =
      stWit.chapters.filter (fun c => !decide (c.bookId = str "b1")) :=
  ⟨(C2_deleteBook (str "b1") stWit (by decide) (by decide)).1,
   (C2_deleteBook (str "b1") stWit (by decide) (by decide)).2.2.1⟩

/-- An insert payload referencing the nonexistent book id `b1`. -/
def orphanIC : InsertChapter :=
  { bookId := str "b1", title := str "t", content := str "c", order := 0 }

/-- C2 counterexample: in a store that contains no book `b1` but does
contain an orphan chapter referencing `b1` (created through the public
`createChapter`), `deleteBook "b1"` returns the not-found signal `false`
yet still mutates the repository (the orphan chapter is deleted). -/
theorem C2_counterexample :
    ((createChapter orphanIC (str "c1") emptyStorage).2).books = [] ∧
    (deleteBook (str "b1") ((createChapter orphanIC (str "c1") emptyStorage).2)).1 =
      false ∧
    (deleteBook (str "b1") ((createChapter orphanIC (str "c1") emptyStorage).2)).2 ≠
      ((createChapter orphanIC (str "c1") emptyStorage).2) := by
  decide

/-- C9: `createChapter` performs no existence check on `bookId`: even in
a state whose books do not include `ic.bookId`, the insert succeeds, the
returned chapter is stored, and it appears in
`getChaptersByBookId ic.bookId` — orphan chapters can be created through
the public interface. -/
theorem C9_createChapter_orphan (st : MemStorage) (ic : InsertChapter) (fid : Str)
    (h : st.books.all (fun b => !decide (b.id = ic.bookId)) = true) :
    (createChapter ic fid st).1 ∈ ((createChapter ic fid st).2).chapters ∧
    (createChapter ic fid st).1 ∈
      getChaptersByBookId ic.bookId ((createChapter ic fid st).2) := by
  have hmem : (createChapter ic fid st).1 ∈ ((createChapter ic fid st).2).chapters := by
    show (createChapter ic fid st).1 ∈
      chapterMapSet st.chapters (createChapter ic fid st).1
    unfold chapterMapSet
    by_cases hany :
        st.chapters.any (fun x => decide (x.id = (createChapter ic fid st).1.id)) = true
    · rw [if_pos hany]
      obtain ⟨x, hxmem, hxid⟩ := List.any_eq_true.1 hany
      exact List.mem_map.2 ⟨x, hxmem, if_pos (of_decide_eq_true hxid)⟩
    · rw [if_neg hany]
      exact List.mem_append_right _ (List.mem_singleton.2 rfl)
  refine ⟨hmem, ?_⟩
  unfold getChaptersByBookId
  rw [List.mem_mergeSort]
  exact List.mem_filter.2 ⟨hmem, decide_eq_true rfl⟩

/-- C9 witness: creating a chapter for the nonexistent book `b1` in the
empty store succeeds and the chapter is retrievable by that book id. -/
theorem C9_witness :
    emptyStorage.books.all (fun b => !decide (b.id = orphanIC.bookId)) = true ∧
    ((createChapter orphanIC (str "c1") emptyStorage).1 ∈
        ((createChapter orphanIC (str "c1") emptyStorage).2).chapters ∧
      (createChapter orphanIC (str "c1") emptyStorage).1 ∈
        getChaptersByBookId orphanIC.bookId
          ((createChapter orphanIC (str "c1") emptyStorage).2)) :=
  ⟨by decide, C9_createChapter_orphan emptyStorage orphanIC (str "c1") (by decide)⟩
